import Mathlib

/-!
Shallow embedding of `src/main.rs` of the `rust-orders` service: a small
axum/sqlx CRUD server over a single `orders` table.  The handlers
`get_orders`, `add_order`, `update_order`, `delete_order` and the stub
`get_order` are embedded as pure Lean functions; the Postgres collaborator is
modelled as a list of rows with the standard SQL semantics of the single
statement each handler issues.  Driver failure is modelled by a boolean
outcome parameter (`driverOk`); handlers map a failure to the error envelope
the source builds in its `map_err` closure.
-/

namespace RustOrders

/-- A bound SQL parameter value: the handlers bind `i32` and `String`
(respectively `Option` of those, always in the `Some` case) via sqlx. -/
inductive Value where
  | int : Int → Value
  | str : String → Value
deriving DecidableEq

/-- The persisted `orders` row: column `id` (primary key, server-assigned)
plus the four nullable columns (`struct Orders`, main.rs lines 70-77). -/
structure Row where
  id : Int
  name : Option String
  coffee_name : Option String
  size : Option String
  total : Option Int
deriving DecidableEq

/-- `struct CreateOrdersReq` (main.rs lines 114-120): the creation payload.
All four fields required; there is no `id` field. -/
structure CreateOrdersReq where
  name : String
  coffee_name : String
  size : String
  total : Int
deriving DecidableEq

/-- `struct CreateOrdersRow` (main.rs lines 122-125). -/
structure CreateOrdersRow where
  id : Int
deriving DecidableEq

/-- `struct UpdateOrdersReq` (main.rs lines 167-173): the Patch — each field
present (`some`) or absent (`none`). -/
structure UpdateOrdersReq where
  name : Option String
  coffee_name : Option String
  size : Option String
  total : Option Int
deriving DecidableEq

/-- The JSON response envelope `struct Response<T>` (main.rs lines 62-67). -/
structure Response (T : Type) where
  status : Bool
  message : Option String
  data : Option T
deriving DecidableEq

/-- The two HTTP status codes the handlers produce. -/
inductive StatusCode where
  | OK
  | INTERNAL_SERVER_ERROR
deriving DecidableEq

/-- Error half of every handler's result type. -/
abbrev Err := StatusCode × Response Unit

/-- The statement text built by `update_order` (main.rs lines 186-209):
start from `UPDATE orders SET id = $1`, then for each present field in the
fixed order (name, coffee_name, size, total) append `, field = $i` with `i`
starting at 2 and incremented after each of the first three fields (the
source does not increment `i` after the `total` clause), then append
` WHERE id = $1`. -/
def buildUpdateQuery (order : UpdateOrdersReq) : String :=
  let q := "UPDATE orders SET id = $1"
  let i := 2
  let (q, i) := if order.name.isSome then (q ++ ", name = $" ++ toString i, i + 1) else (q, i)
  let (q, i) := if order.coffee_name.isSome then (q ++ ", coffee_name = $" ++ toString i, i + 1) else (q, i)
  let (q, i) := if order.size.isSome then (q ++ ", size = $" ++ toString i, i + 1) else (q, i)
  let q := if order.total.isSome then q ++ ", total = $" ++ toString i else q
  q ++ " WHERE id = $1"

/-- The bound-value sequence built by `update_order` (main.rs lines 211-227):
`bind(id)` first, then one `bind` per present field, in the same fixed field
order as the clauses. -/
def buildBinds (id : Int) (order : UpdateOrdersReq) : List Value :=
  let s := [Value.int id]
  let s := match order.name with
    | some v => s ++ [Value.str v]
    | none => s
  let s := match order.coffee_name with
    | some v => s ++ [Value.str v]
    | none => s
  let s := match order.size with
    | some v => s ++ [Value.str v]
    | none => s
  let s := match order.total with
    | some v => s ++ [Value.int v]
    | none => s
  s

/-- Placeholder scanner state machine over the statement characters: after a
`$` it accumulates the following digits into an index and emits it.  Used
only to STATE properties about the generated statement text. -/
def scanAux : List Char → Option Nat → List Nat
  | [], some acc => [acc]
  | [], none => []
  | c :: rest, some acc =>
      if c.isDigit then scanAux rest (some (acc * 10 + (c.toNat - 48)))
      else acc :: (if c = '$' then scanAux rest (some 0) else scanAux rest none)
  | c :: rest, none =>
      if c = '$' then scanAux rest (some 0) else scanAux rest none

/-- The sequence of placeholder indices occurring in a statement text, in
textual order, with repetitions. -/
def placeholderIndices (q : String) : List Nat :=
  scanAux q.data none

/-- Duplicate-removing helper (keeps one copy of each index). -/
def dedupNats : List Nat → List Nat
  | [] => []
  | x :: xs => if x ∈ dedupNats xs then dedupNats xs else x :: dedupNats xs

/-- Number of distinct placeholder indices in a statement text. -/
def distinctPlaceholderCount (q : String) : Nat :=
  (dedupNats (placeholderIndices q)).length

/-- Names of the present Patch fields in the fixed field order, following the
spec's description of the composer (spec §4.1). -/
def presentFieldNames (o : UpdateOrdersReq) : List String :=
  (if o.name.isSome then ["name"] else []) ++
  (if o.coffee_name.isSome then ["coffee_name"] else []) ++
  (if o.size.isSome then ["size"] else []) ++
  (if o.total.isSome then ["total"] else [])

/-- Values of the present Patch fields in the fixed field order. -/
def presentValues (o : UpdateOrdersReq) : List Value :=
  (match o.name with | some v => [Value.str v] | none => []) ++
  (match o.coffee_name with | some v => [Value.str v] | none => []) ++
  (match o.size with | some v => [Value.str v] | none => []) ++
  (match o.total with | some v => [Value.int v] | none => [])

/-- Number of present fields of a Patch. -/
def countPresent (o : UpdateOrdersReq) : Nat :=
  (presentFieldNames o).length

/-- Modelled from the spec (§4.1, refinement reference): the statement text
the spec describes — `field = $N` clauses for present fields in fixed order,
indices sequential from 2, placeholder 1 reserved for the WHERE identifier. -/
def composeSpecQuery (o : UpdateOrdersReq) : String :=
  "UPDATE orders SET id = $1" ++
    String.join ((presentFieldNames o).enum.map
      (fun p => ", " ++ p.2 ++ " = $" ++ toString (p.1 + 2))) ++
  " WHERE id = $1"

/-- SQL semantics of applying the generated SET list to one matched row:
`id` is (self-)assigned the WHERE identifier, each present field is
overwritten, absent fields keep their stored value. -/
def applyRowUpdate (tid : Int) (o : UpdateOrdersReq) (r : Row) : Row :=
  { id := tid,
    name := match o.name with | some v => some v | none => r.name,
    coffee_name := match o.coffee_name with | some v => some v | none => r.coffee_name,
    size := match o.size with | some v => some v | none => r.size,
    total := match o.total with | some v => some v | none => r.total }

/-- SQL semantics of the generated `UPDATE ... WHERE id = $1` statement on
the table: update exactly the rows whose `id` matches; the affected-row
count is the number of matched rows. -/
def execUpdate (db : List Row) (tid : Int) (o : UpdateOrdersReq) : List Row × Nat :=
  (db.map (fun r => if r.id = tid then applyRowUpdate tid o r else r),
   (db.filter (fun r => decide (r.id = tid))).length)

/-- SQL semantics of `DELETE FROM orders WHERE id = $1`. -/
def execDelete (db : List Row) (tid : Int) : List Row × Nat :=
  (db.filter (fun r => decide (¬ r.id = tid)),
   (db.filter (fun r => decide (r.id = tid))).length)

/-- Sort key of `SELECT * FROM orders ORDER BY id`: ascending by `id`. -/
def idLe (a b : Row) : Prop := a.id ≤ b.id

instance : DecidableRel idLe := fun a b => inferInstanceAs (Decidable (a.id ≤ b.id))

instance : IsTotal Row idLe := ⟨fun a b => Int.le_total a.id b.id⟩

instance : IsTrans Row idLe := ⟨fun _ _ _ h1 h2 => le_trans h1 h2⟩

/-- Result set of `SELECT * FROM orders ORDER BY id`: the stored rows sorted
ascending by `id`. -/
def sortById (db : List Row) : List Row :=
  List.insertionSort idLe db

/-- Record of the interaction one handler call has with the database: the
statements (text and binds) issued to the driver, the resulting table state,
and the driver-reported affected/fetched row count. -/
structure ExecLog where
  statements : List (String × List Value)
  db : List Row
  rowsAffected : Nat
deriving DecidableEq

/-- Handler `get_orders` (main.rs lines 80-112): issue the SELECT once; on
driver failure return the 500 envelope, otherwise the rows sorted by id. -/
def get_orders (db : List Row) (driverOk : Bool) :
    ExecLog × Except Err (StatusCode × Response (List Row)) :=
  if driverOk then
    (⟨[("SELECT * FROM orders ORDER BY id", [])], db, (sortById db).length⟩,
     .ok (StatusCode.OK, ⟨true, some "found orders", some (sortById db)⟩))
  else
    (⟨[("SELECT * FROM orders ORDER BY id", [])], db, 0⟩,
     .error (StatusCode.INTERNAL_SERVER_ERROR, ⟨false, some "Error retrieving orders", none⟩))

/-- The INSERT statement text of `add_order` (main.rs line 137). -/
def insertQuery : String :=
  "INSERT INTO orders (name, coffee_name, size, total) VALUES ($1, $2, $3, $4) RETURNING id"

/-- Handler `add_order` (main.rs lines 128-164): issue the INSERT once with
the four payload fields bound; the store assigns the new row's id (`newId`,
the `RETURNING id` value); on driver failure return the 500 envelope. -/
def add_order (db : List Row) (newId : Int) (req : CreateOrdersReq) (driverOk : Bool) :
    ExecLog × Except Err (StatusCode × Response CreateOrdersRow) :=
  let binds := [Value.str req.name, Value.str req.coffee_name, Value.str req.size,
                Value.int req.total]
  if driverOk then
    (⟨[(insertQuery, binds)],
      db ++ [⟨newId, some req.name, some req.coffee_name, some req.size, some req.total⟩], 1⟩,
     .ok (StatusCode.OK, ⟨true, some "added successfully", some ⟨newId⟩⟩))
  else
    (⟨[(insertQuery, binds)], db, 0⟩,
     .error (StatusCode.INTERNAL_SERVER_ERROR, ⟨false, some "Error adding order", none⟩))

/-- Handler `update_order` (main.rs lines 176-252): compose the statement and
binds from the Patch, issue it once (unconditionally — there is no empty-Patch
short-circuit in the source), and on success return the envelope
`{status: true, message: None, data: None}`; the driver's affected-row count
is discarded.  On driver failure return the 500 envelope and leave the table
unchanged. -/
def update_order (db : List Row) (id : Int) (order : UpdateOrdersReq) (driverOk : Bool) :
    ExecLog × Except Err (StatusCode × Response CreateOrdersRow) :=
  let q := buildUpdateQuery order
  let binds := buildBinds id order
  if driverOk then
    let r := execUpdate db id order
    (⟨[(q, binds)], r.1, r.2⟩, .ok (StatusCode.OK, ⟨true, none, none⟩))
  else
    (⟨[(q, binds)], db, 0⟩,
     .error (StatusCode.INTERNAL_SERVER_ERROR, ⟨false, some "Error updating order", none⟩))

/-- The DELETE statement text of `delete_order` (main.rs lines 260-266). -/
def deleteQuery : String :=
  "DELETE FROM orders WHERE id = $1"

/-- Handler `delete_order` (main.rs lines 253-289): issue the DELETE once with
the path id bound; on success return `{status: true, message: None, data:
None}` (the affected-row count is discarded); on driver failure return the
500 envelope and leave the table unchanged. -/
def delete_order (db : List Row) (id : Int) (driverOk : Bool) :
    ExecLog × Except Err (StatusCode × Response CreateOrdersRow) :=
  if driverOk then
    let r := execDelete db id
    (⟨[(deleteQuery, [Value.int id])], r.1, r.2⟩, .ok (StatusCode.OK, ⟨true, none, none⟩))
  else
    (⟨[(deleteQuery, [Value.int id])], db, 0⟩,
     .error (StatusCode.INTERNAL_SERVER_ERROR, ⟨false, some "Error deleting order", none⟩))

/-- Handler `get_order` (main.rs lines 292-297): the body is `todo!()`, an
unconditional panic; it never produces a result (`none` models the panic). -/
def get_order (db : List Row) (id : Int) :
    Option (Except (StatusCode × String) (StatusCode × String)) :=
  none

/-- The route table registered in `main` (main.rs lines 51-55). -/
def routeTable : List (String × List String) :=
  [("/", ["GET"]),
   ("/orders", ["GET", "POST"]),
   ("/orders/:id", ["GET", "PUT", "DELETE"])]
/-- C1: for every patch and identifier the composed statement assigns
placeholder indices to present fields sequentially from 2 in the fixed field
order with placeholder 1 reserved for the WHERE identifier (the statement
equals the spec-described rendering), and the bound-value sequence is the
identifier followed by the present fields' values in that order; with all
four fields present the statement has five distinct placeholders and the
binds are (identifier, name, coffee_name, size, total). -/
theorem update_compose_matches_spec (id : Int) (o : UpdateOrdersReq) :
    buildUpdateQuery o = composeSpecQuery o ∧
    buildBinds id o = Value.int id :: presentValues o ∧
    (∀ n c s t, o.name = some n → o.coffee_name = some c → o.size = some s → o.total = some t →
      distinctPlaceholderCount (buildUpdateQuery o) = 5 ∧
      buildBinds id o = [Value.int id, Value.str n, Value.str c, Value.str s, Value.int t]) := by
  obtain ⟨n, c, s, t⟩ := o
  cases n <;> cases c <;> cases s <;> cases t <;>
    refine ⟨rfl, rfl, fun n' c' s' t' h1 h2 h3 h4 => ?_⟩ <;>
    first
      | exact Option.noConfusion h1
      | exact Option.noConfusion h2
      | exact Option.noConfusion h3
      | exact Option.noConfusion h4
      | (simp only [Option.some.injEq] at h1 h2 h3 h4
         subst h1; subst h2; subst h3; subst h4
         exact ⟨rfl, rfl⟩)

/-- C1 witness: the all-present instantiation at id 7. -/
theorem update_compose_matches_spec_w :
    buildBinds 7 ⟨some "a", some "b", some "c", some 5⟩ =
      [Value.int 7, Value.str "a", Value.str "b", Value.str "c", Value.int 5] :=
  ((update_compose_matches_spec 7 ⟨some "a", some "b", some "c", some 5⟩).2.2
    "a" "b" "c" 5 rfl rfl rfl rfl).2

/-- C2: the source does NOT short-circuit an all-absent Patch: it still
issues the self-referential statement `UPDATE orders SET id = $1 WHERE id =
$1`, which matches (and so affects) the row whose id is the target — here
one row, not zero. -/
theorem empty_patch_still_issues_statement :
    (update_order [⟨1, some "a", some "b", some "c", some 5⟩] 1
        ⟨none, none, none, none⟩ true).1.statements =
      [("UPDATE orders SET id = $1 WHERE id = $1", [Value.int 1])] ∧
    (update_order [⟨1, some "a", some "b", some "c", some 5⟩] 1
        ⟨none, none, none, none⟩ true).1.rowsAffected = 1 :=
  ⟨rfl, rfl⟩

/-- C3: for every Patch with exactly one present field the composed statement
has exactly two distinct placeholders and the bound-value sequence is the
identifier followed by that single field's new value. -/
theorem single_field_compose (id : Int) (o : UpdateOrdersReq) (h : countPresent o = 1) :
    distinctPlaceholderCount (buildUpdateQuery o) = 2 ∧
    buildBinds id o = Value.int id :: presentValues o ∧
    (presentValues o).length = 1 := by
  obtain ⟨n, c, s, t⟩ := o
  cases n <;> cases c <;> cases s <;> cases t <;>
    first
      | exact ⟨rfl, rfl, rfl⟩
      | (exfalso; revert h; simp [countPresent, presentFieldNames])

/-- C3 witness: the size-only Patch at id 4. -/
theorem single_field_compose_w :
    distinctPlaceholderCount (buildUpdateQuery ⟨none, none, some "L", none⟩) = 2 ∧
    buildBinds 4 ⟨none, none, some "L", none⟩ =
      Value.int 4 :: presentValues ⟨none, none, some "L", none⟩ ∧
    (presentValues (⟨none, none, some "L", none⟩ : UpdateOrdersReq)).length = 1 :=
  single_field_compose 4 ⟨none, none, some "L", none⟩ rfl

/-- C4: the statement text depends only on the presence pattern of the Patch
— two Patches presenting the same fields yield the identical statement
string whatever their values; values reach the driver only through the bind
list. -/
theorem same_presence_same_statement (o o' : UpdateOrdersReq)
    (h1 : o.name.isSome = o'.name.isSome)
    (h2 : o.coffee_name.isSome = o'.coffee_name.isSome)
    (h3 : o.size.isSome = o'.size.isSome)
    (h4 : o.total.isSome = o'.total.isSome) :
    buildUpdateQuery o = buildUpdateQuery o' := by
  unfold buildUpdateQuery
  rw [h1, h2, h3, h4]

/-- C4 witness: an injection-shaped value leaves the statement text
unchanged. -/
theorem same_presence_same_statement_w :
    buildUpdateQuery ⟨some "alice", none, none, some 450⟩ =
      buildUpdateQuery ⟨some "x); DROP TABLE orders;--", none, none, some 9⟩ :=
  same_presence_same_statement _ _ rfl rfl rfl rfl

/-- C5: every generated update statement begins with the self-assignment
`id = $1` as the first SET clause, the first bound value is the target
identifier, and the all-absent Patch yields a SET list consisting of only
that clause. -/
theorem self_assignment_first_clause (id : Int) (o : UpdateOrdersReq) :
    (∃ rest, buildUpdateQuery o = "UPDATE orders SET id = $1" ++ rest) ∧
    (buildBinds id o).head? = some (Value.int id) ∧
    buildUpdateQuery ⟨none, none, none, none⟩ = "UPDATE orders SET id = $1 WHERE id = $1" := by
  obtain ⟨n, c, s, t⟩ := o
  cases n <;> cases c <;> cases s <;> cases t <;>
    first
      | exact ⟨⟨" WHERE id = $1", rfl⟩, rfl, rfl⟩
      | exact ⟨⟨", name = $2 WHERE id = $1", rfl⟩, rfl, rfl⟩
      | exact ⟨⟨", coffee_name = $2 WHERE id = $1", rfl⟩, rfl, rfl⟩
      | exact ⟨⟨", size = $2 WHERE id = $1", rfl⟩, rfl, rfl⟩
      | exact ⟨⟨", total = $2 WHERE id = $1", rfl⟩, rfl, rfl⟩
      | exact ⟨⟨", name = $2, coffee_name = $3 WHERE id = $1", rfl⟩, rfl, rfl⟩
      | exact ⟨⟨", name = $2, size = $3 WHERE id = $1", rfl⟩, rfl, rfl⟩
      | exact ⟨⟨", name = $2, total = $3 WHERE id = $1", rfl⟩, rfl, rfl⟩
      | exact ⟨⟨", coffee_name = $2, size = $3 WHERE id = $1", rfl⟩, rfl, rfl⟩
      | exact ⟨⟨", coffee_name = $2, total = $3 WHERE id = $1", rfl⟩, rfl, rfl⟩
      | exact ⟨⟨", size = $2, total = $3 WHERE id = $1", rfl⟩, rfl, rfl⟩
      | exact ⟨⟨", name = $2, coffee_name = $3, size = $4 WHERE id = $1", rfl⟩, rfl, rfl⟩
      | exact ⟨⟨", name = $2, coffee_name = $3, total = $4 WHERE id = $1", rfl⟩, rfl, rfl⟩
      | exact ⟨⟨", name = $2, size = $3, total = $4 WHERE id = $1", rfl⟩, rfl, rfl⟩
      | exact ⟨⟨", coffee_name = $2, size = $3, total = $4 WHERE id = $1", rfl⟩, rfl, rfl⟩
      | exact ⟨⟨", name = $2, coffee_name = $3, size = $4, total = $5 WHERE id = $1", rfl⟩, rfl, rfl⟩

/-- C6 counterexample: the success responses of two updates — one hitting an
existing row (one row affected), one hitting a missing id (zero rows
affected) — are identical, with `data` empty in both; the result value is
therefore not the affected-row count and carries no existence signal. -/
theorem update_response_ignores_row_count_cex :
    (update_order [⟨1, some "a", some "b", some "c", some 5⟩] 1
        ⟨some "z", none, none, none⟩ true).2 =
      (update_order [⟨1, some "a", some "b", some "c", some 5⟩] 2
        ⟨some "z", none, none, none⟩ true).2 ∧
    (update_order [⟨1, some "a", some "b", some "c", some 5⟩] 1
        ⟨some "z", none, none, none⟩ true).1.rowsAffected = 1 ∧
    (update_order [⟨1, some "a", some "b", some "c", some 5⟩] 2
        ⟨some "z", none, none, none⟩ true).1.rowsAffected = 0 :=
  ⟨rfl, rfl, rfl⟩

/-- C6 (amended): update and delete discard the driver's affected-row count —
on success both return the bare success envelope with no data, whatever the
count — and an update or delete against a non-existent id succeeds with zero
rows affected at the database and raises no error. -/
theorem update_delete_discard_row_count (db : List Row) (tid : Int) (o : UpdateOrdersReq)
    (h : ∀ r ∈ db, r.id ≠ tid) :
    (∀ db2 t2 o2, (update_order db2 t2 o2 true).2 = .ok (StatusCode.OK, ⟨true, none, none⟩)) ∧
    (∀ db2 t2, (delete_order db2 t2 true).2 = .ok (StatusCode.OK, ⟨true, none, none⟩)) ∧
    (update_order db tid o true).1.rowsAffected = 0 ∧
    (delete_order db tid true).1.rowsAffected = 0 ∧
    (delete_order db tid true).1.db = db := by
  have hf : db.filter (fun r => decide (r.id = tid)) = [] := by
    rw [List.filter_eq_nil_iff]
    intro r hr
    simpa using h r hr
  have hs : db.filter (fun r => decide (¬ r.id = tid)) = db := by
    rw [List.filter_eq_self]
    intro r hr
    simpa using h r hr
  refine ⟨fun _ _ _ => rfl, fun _ _ => rfl, ?_, ?_, ?_⟩
  · simp [update_order, execUpdate, hf]
  · simp [delete_order, execDelete, hf]
  · simp only [delete_order, execDelete]
    exact hs

/-- C6 witness: a one-row table and a non-matching id. -/
theorem update_delete_discard_row_count_w :
    (update_order [⟨5, some "a", some "b", some "c", some 1⟩] 9
        ⟨some "z", none, none, none⟩ true).1.rowsAffected = 0 ∧
    (delete_order [⟨5, some "a", some "b", some "c", some 1⟩] 9 true).1.rowsAffected = 0 :=
  ⟨(update_delete_discard_row_count [⟨5, some "a", some "b", some "c", some 1⟩] 9
      ⟨some "z", none, none, none⟩ (by decide)).2.2.1,
   (update_delete_discard_row_count [⟨5, some "a", some "b", some "c", some 1⟩] 9
      ⟨some "z", none, none, none⟩ (by decide)).2.2.2.1⟩

/-- C7: an update maps the table row-wise; a non-matching row is untouched, a
matched row keeps its id (the self-assignment writes back the WHERE
identifier) and keeps every column whose Patch field is absent; and the
creation payload carries no id — the created id is the server-assigned one,
identical for any two payloads. -/
theorem update_frame (db : List Row) (tid nid : Int) (o : UpdateOrdersReq) (r : Row)
    (req req' : CreateOrdersReq) :
    (execUpdate db tid o).1 = db.map (fun x => if x.id = tid then applyRowUpdate tid o x else x) ∧
    (r.id = tid → (applyRowUpdate tid o r).id = r.id) ∧
    (o.name = none → (applyRowUpdate tid o r).name = r.name) ∧
    (o.coffee_name = none → (applyRowUpdate tid o r).coffee_name = r.coffee_name) ∧
    (o.size = none → (applyRowUpdate tid o r).size = r.size) ∧
    (o.total = none → (applyRowUpdate tid o r).total = r.total) ∧
    (add_order db nid req true).2 = (add_order db nid req' true).2 := by
  refine ⟨rfl, ?_, ?_, ?_, ?_, ?_, rfl⟩
  · intro h; simp [applyRowUpdate, h]
  · intro h; simp [applyRowUpdate, h]
  · intro h; simp [applyRowUpdate, h]
  · intro h; simp [applyRowUpdate, h]
  · intro h; simp [applyRowUpdate, h]

/-- C7 witness: a size-only Patch leaves the stored name unchanged. -/
theorem update_frame_w :
    (applyRowUpdate 3 ⟨none, none, some "XL", none⟩
        ⟨3, some "a", some "b", some "c", some 7⟩).name = some "a" :=
  (update_frame [] 3 0 ⟨none, none, some "XL", none⟩ ⟨3, some "a", some "b", some "c", some 7⟩
    ⟨"x", "y", "z", 1⟩ ⟨"x", "y", "z", 1⟩).2.2.1 rfl

/-- C8: list returns all stored orders sorted ascending by id (a sorted
permutation of the table), and after a successful create the identifier
returned by create appears in a subsequent list result. -/
theorem list_sorted_create_visible (db : List Row) (nid : Int) (req : CreateOrdersReq) :
    (get_orders db true).2 = .ok (StatusCode.OK, ⟨true, some "found orders", some (sortById db)⟩) ∧
    List.Sorted idLe (sortById db) ∧
    (sortById db).Perm db ∧
    (add_order db nid req true).2 =
      .ok (StatusCode.OK, ⟨true, some "added successfully", some ⟨nid⟩⟩) ∧
    nid ∈ (sortById (add_order db nid req true).1.db).map Row.id := by
  refine ⟨rfl, List.sorted_insertionSort idLe db, List.perm_insertionSort idLe db, rfl, ?_⟩
  have hmem : (⟨nid, some req.name, some req.coffee_name, some req.size, some req.total⟩ : Row) ∈
      (add_order db nid req true).1.db := by
    simp [add_order]
  exact List.mem_map_of_mem Row.id
    ((List.perm_insertionSort idLe (add_order db nid req true).1.db).mem_iff.mpr hmem)

/-- C9: on driver failure each operation returns its typed 500 envelope,
issues exactly one statement (no retry, on failure and on success alike),
leaves the table unchanged, and recovers nothing internally. -/
theorem driver_error_typed_failure (db : List Row) (tid nid : Int) (o : UpdateOrdersReq)
    (req : CreateOrdersReq) :
    (update_order db tid o false).2 =
      .error (StatusCode.INTERNAL_SERVER_ERROR, ⟨false, some "Error updating order", none⟩) ∧
    (update_order db tid o false).1.db = db ∧
    (update_order db tid o false).1.statements.length = 1 ∧
    (update_order db tid o true).1.statements.length = 1 ∧
    (add_order db nid req false).2 =
      .error (StatusCode.INTERNAL_SERVER_ERROR, ⟨false, some "Error adding order", none⟩) ∧
    (add_order db nid req false).1.db = db ∧
    (add_order db nid req false).1.statements.length = 1 ∧
    (add_order db nid req true).1.statements.length = 1 ∧
    (delete_order db tid false).2 =
      .error (StatusCode.INTERNAL_SERVER_ERROR, ⟨false, some "Error deleting order", none⟩) ∧
    (delete_order db tid false).1.db = db ∧
    (delete_order db tid false).1.statements.length = 1 ∧
    (delete_order db tid true).1.statements.length = 1 ∧
    (get_orders db false).2 =
      .error (StatusCode.INTERNAL_SERVER_ERROR, ⟨false, some "Error retrieving orders", none⟩) ∧
    (get_orders db false).1.db = db ∧
    (get_orders db false).1.statements.length = 1 ∧
    (get_orders db true).1.statements.length = 1 :=
  ⟨rfl, rfl, rfl, rfl, rfl, rfl, rfl, rfl, rfl, rfl, rfl, rfl, rfl, rfl, rfl, rfl⟩

/-- C10: `GET /orders/:id` is routed to `get_order`, whose body is an
unconditional `todo!()` stub — for every input it produces no result, so it
never returns a matching Order nor a NotFound outcome. -/
theorem get_order_unimplemented (db : List Row) (id : Int) :
    get_order db id = none ∧ ("/orders/:id", ["GET", "PUT", "DELETE"]) ∈ routeTable :=
  ⟨rfl, by decide⟩

end RustOrders
